import Mathlib

/-!
# ConfigDxe: variable bootstrap and CPU clock policy

A shallow embedding of `Drivers/ConfigDxe/ConfigDxe.c`.

The driver talks to three collaborators that are not part of the file:
the variable store (`gRT->GetVariable`, `PcdGet32`, `PcdSet32`), the boot
services with the HII library (`gBS->...`, `HiiAddPackages`) and the
Raspberry Pi firmware protocol (`mFwProtocol->...`).  Each of them is a
record of functions over an abstract world state `W`; a C out-parameter is a
function argument (the content at entry) together with a component of the
result (the content at return).  Every function of the embedding returns the
new world state and the list of collaborator calls and `DEBUG` lines it
issued, in program order.
-/

namespace ConfigDxe

/-! ## Machine types and status codes -/

/-- Number of values of the C type `UINT32`. -/
def UINT32_MOD : Nat := 2 ^ 32

/-- Number of values of the C type `UINTN` (64 bit on AArch64). -/
def UINTN_MOD : Nat := 2 ^ 64

/-- An `EFI_STATUS` is a `UINTN`; values are read modulo `UINTN_MOD`. -/
abbrev EFI_STATUS := Nat

/-- The high bit of a `UINTN`, which marks an error status. -/
def MAX_BIT : Nat := 2 ^ 63

/-! The status codes the driver and the sample collaborators use, with their
UEFI values: an error code is `MAX_BIT` plus its number. -/

def EFI_SUCCESS : EFI_STATUS := 0
def EFI_BUFFER_TOO_SMALL : EFI_STATUS := MAX_BIT + 5
def EFI_DEVICE_ERROR : EFI_STATUS := MAX_BIT + 7
def EFI_OUT_OF_RESOURCES : EFI_STATUS := MAX_BIT + 9
def EFI_NOT_FOUND : EFI_STATUS := MAX_BIT + 14

/-- The macro `EFI_ERROR (Status)`: the status, read as a signed `INTN`, is
negative. -/
def EFI_ERROR (Status : EFI_STATUS) : Bool := decide (MAX_BIT ≤ Status % UINTN_MOD)

/-- The null pointer. -/
def NULL : Nat := 0

/-- Modelled from the spec: the identifier of the CPU clock domain, the only
domain the driver uses (the header `IndustryStandard/RpiFirmware.h` that
defines it is not part of the sources).  The theorems use it by name only. -/
def RPI_FW_CLOCK_RATE_ARM : Nat := 3

/-! ## Observable events -/

/-- The five PCD tokens the driver reads and writes. -/
inductive PcdToken where
  | PcdHypEnable
  | PcdHypLogMask
  | PcdHypWindowsDebugHook
  | PcdHypWin2000Mask
  | PcdCpuClock
  deriving DecidableEq, Repr

/-- The `DEBUG` lines of the driver, one constructor per format string, with
the value printed by the line. -/
inductive DebugLine where
  /-- EFI_D_ERROR "Couldn't get the max CPU speed, leaving as is: %r" -/
  | CouldntGetMaxSpeed (Status : EFI_STATUS)
  /-- EFI_D_INFO "Setting CPU speed to %uHz" -/
  | SettingSpeed (Rate : Nat)
  /-- EFI_D_ERROR "Couldn't set the CPU speed: %r" -/
  | CouldntSetSpeed (Status : EFI_STATUS)
  /-- EFI_D_ERROR "Couldn't get the CPU speed: %r" -/
  | CouldntGetSpeed (Status : EFI_STATUS)
  /-- EFI_D_INFO "Current CPU speed is %uHz" -/
  | CurrentSpeed (Rate : Nat)
  /-- EFI_D_ERROR "Couldn't not setup NV vars: %r" -/
  | CouldntSetupVars (Status : EFI_STATUS)
  /-- EFI_D_ERROR "Couldn't install ConfigDxe configuration pages: %r" -/
  | CouldntInstallPages (Status : EFI_STATUS)
  deriving DecidableEq, Repr

/-- One collaborator call or log line issued by the driver. -/
inductive Event where
  | GetVariable (VariableName : String) (DataSize : Nat)
  | PcdGet32 (Token : PcdToken)
  | PcdSet32 (Token : PcdToken) (Value : Nat)
  | GetMaxClockRate (ClockId : Nat)
  | SetClockRate (ClockId : Nat) (Rate : Nat)
  | GetClockRate (ClockId : Nat)
  | LocateProtocol
  | InstallMultipleProtocolInterfaces
  | HiiAddPackages (DriverHandle : Nat)
  | UninstallMultipleProtocolInterfaces (DriverHandle : Nat)
  | DEBUG (Line : DebugLine)
  deriving DecidableEq, Repr

/-- The calls to the firmware clock service among the events. -/
def Event.isClockCall : Event → Bool
  | .GetMaxClockRate _ => true
  | .SetClockRate _ _ => true
  | .GetClockRate _ => true
  | _ => false

/-- The clock-service calls of a trace, in order. -/
def clockCalls (trace : List Event) : List Event := trace.filter Event.isClockCall

/-- The log lines of a trace, in order. -/
def debugLines : List Event → List DebugLine
  | [] => []
  | .DEBUG l :: rest => l :: debugLines rest
  | _ :: rest => debugLines rest

/-! ## Collaborator interfaces -/

/-- The members of `RASPBERRY_PI_FIRMWARE_PROTOCOL` the driver calls.
`GetMaxClockRate ClockId Rate w` and `GetClockRate ClockId Rate w` receive
the content of the out-parameter `*ClockRate` at entry and return the status,
the content of `*ClockRate` at return, and the new world. -/
structure RASPBERRY_PI_FIRMWARE_PROTOCOL (W : Type) where
  GetMaxClockRate : Nat → Nat → W → EFI_STATUS × Nat × W
  SetClockRate : Nat → Nat → W → EFI_STATUS × W
  GetClockRate : Nat → Nat → W → EFI_STATUS × Nat × W

/-- The variable services the driver uses: `gRT->GetVariable` (called with
the variable name and the buffer size; the data read is never used by the
driver), and the PCD library calls `PcdGet32` and `PcdSet32`, whose
definitions are not part of the sources. -/
structure VariableServices (W : Type) where
  GetVariable : String → Nat → W → EFI_STATUS × W
  PcdGet32 : PcdToken → W → Nat
  PcdSet32 : PcdToken → Nat → W → W

/-- The boot services and HII library calls the driver uses.
`LocateProtocol` returns the status and the content of `mFwProtocol` at
return (`none` is the null pointer).  `InstallMultipleProtocolInterfaces`
returns the status and the driver handle.  `HiiAddPackages` returns the HII
handle (`NULL` on failure).  `AssertHalts` tells whether a failing
`ASSERT_EFI_ERROR` stops the machine (debug build) or does nothing. -/
structure BootServices (W : Type) where
  LocateProtocol : W → EFI_STATUS × Option (RASPBERRY_PI_FIRMWARE_PROTOCOL W) × W
  InstallMultipleProtocolInterfaces : W → EFI_STATUS × Nat × W
  HiiAddPackages : Nat → W → Nat × W
  UninstallMultipleProtocolInterfaces : Nat → W → EFI_STATUS × W
  AssertHalts : Bool

/-- What a function of the driver returns: its C return value, the world it
leaves, and the events it issued. -/
structure Outcome (W : Type) (α : Type) where
  ret : α
  world : W
  trace : List Event

/-! ## The driver -/

/-- `InstallHiiPages` (lines 58-90). -/
def InstallHiiPages {W : Type} (B : BootServices W) (w : W) : Outcome W EFI_STATUS :=
  let r := B.InstallMultipleProtocolInterfaces w
  let Status := r.1 % UINTN_MOD
  let DriverHandle := r.2.1
  if EFI_ERROR Status then
    { ret := Status, world := r.2.2, trace := [.InstallMultipleProtocolInterfaces] }
  else
    let h := B.HiiAddPackages DriverHandle r.2.2
    let HiiHandle := h.1
    if HiiHandle = NULL then
      let u := B.UninstallMultipleProtocolInterfaces DriverHandle h.2
      { ret := EFI_OUT_OF_RESOURCES, world := u.2,
        trace := [.InstallMultipleProtocolInterfaces, .HiiAddPackages DriverHandle,
                  .UninstallMultipleProtocolInterfaces DriverHandle] }
    else
      { ret := EFI_SUCCESS, world := h.2,
        trace := [.InstallMultipleProtocolInterfaces, .HiiAddPackages DriverHandle] }

/-- One block of `SetupVariables` (for instance lines 107-113): read the
variable into a buffer of `sizeof (UINT32)` bytes; if the read is an error,
store the value `PcdGet32` gives for the token with `PcdSet32`.  The five
blocks of the function differ only in the name and the token. -/
def SetupVariablesBlock {W : Type} (P : VariableServices W) (VariableName : String)
    (Token : PcdToken) (w : W) : Outcome W Unit :=
  let Size := 4
  let r := P.GetVariable VariableName Size w
  let Status := r.1 % UINTN_MOD
  if EFI_ERROR Status then
    let Value := P.PcdGet32 Token r.2 % UINT32_MOD
    { ret := (), world := P.PcdSet32 Token Value r.2,
      trace := [.GetVariable VariableName Size, .PcdGet32 Token, .PcdSet32 Token Value] }
  else
    { ret := (), world := r.2, trace := [.GetVariable VariableName Size] }

/-- `SetupVariables` (lines 93-153): the five blocks in source order, then
`return EFI_SUCCESS`. -/
def SetupVariables {W : Type} (P : VariableServices W) (w : W) : Outcome W EFI_STATUS :=
  let b1 := SetupVariablesBlock P "HypEnable" .PcdHypEnable w
  let b2 := SetupVariablesBlock P "HypLogMask" .PcdHypLogMask b1.world
  let b3 := SetupVariablesBlock P "HypWindowsDebugHook" .PcdHypWindowsDebugHook b2.world
  let b4 := SetupVariablesBlock P "HypWin2000Mask" .PcdHypWin2000Mask b3.world
  let b5 := SetupVariablesBlock P "CpuClock" .PcdCpuClock b4.world
  { ret := EFI_SUCCESS, world := b5.world,
    trace := b1.trace ++ b2.trace ++ b3.trace ++ b4.trace ++ b5.trace }

/-- What `ApplyVariables` leaves: the world, the events, and the value the
local variable `Rate` has when line 181 tests it (the target rate). -/
structure Applied (W : Type) where
  world : W
  trace : List Event
  TargetRate : Nat

/-- `ApplyVariables` (lines 156-197), with `mFwProtocol` a valid pointer to
the protocol `fw`. -/
def ApplyVariables {W : Type} (P : VariableServices W)
    (fw : RASPBERRY_PI_FIRMWARE_PROTOCOL W) (w : W) : Applied W :=
  let CpuClock := P.PcdGet32 .PcdCpuClock w % UINT32_MOD
  let Rate0 := 0
  -- lines 165-179: resolve the target rate
  let s1 : Nat × W × List Event :=
    if CpuClock ≠ 0 then
      if CpuClock = 2 then
        let r := fw.GetMaxClockRate RPI_FW_CLOCK_RATE_ARM Rate0 w
        let Status := r.1 % UINTN_MOD
        let Rate := r.2.1 % UINT32_MOD
        if Status ≠ EFI_SUCCESS then
          (Rate, r.2.2, [.GetMaxClockRate RPI_FW_CLOCK_RATE_ARM,
                         .DEBUG (.CouldntGetMaxSpeed Status)])
        else
          (Rate, r.2.2, [.GetMaxClockRate RPI_FW_CLOCK_RATE_ARM])
      else
        (600 * 1000000, w, [])
    else
      (Rate0, w, [])
  let Rate1 := s1.1
  -- lines 181-188: apply it
  let s2 : W × List Event :=
    if Rate1 ≠ 0 then
      let r := fw.SetClockRate RPI_FW_CLOCK_RATE_ARM Rate1 s1.2.1
      let Status := r.1 % UINTN_MOD
      if Status ≠ EFI_SUCCESS then
        (r.2, [.DEBUG (.SettingSpeed Rate1), .SetClockRate RPI_FW_CLOCK_RATE_ARM Rate1,
               .DEBUG (.CouldntSetSpeed Status)])
      else
        (r.2, [.DEBUG (.SettingSpeed Rate1), .SetClockRate RPI_FW_CLOCK_RATE_ARM Rate1])
    else
      (s1.2.1, [])
  -- lines 190-196: read the current rate back
  let r := fw.GetClockRate RPI_FW_CLOCK_RATE_ARM Rate1 s2.1
  let Status := r.1 % UINTN_MOD
  let Rate2 := r.2.1 % UINT32_MOD
  let s3 : List Event :=
    if Status ≠ EFI_SUCCESS then
      [.GetClockRate RPI_FW_CLOCK_RATE_ARM, .DEBUG (.CouldntGetSpeed Status)]
    else
      [.GetClockRate RPI_FW_CLOCK_RATE_ARM, .DEBUG (.CurrentSpeed Rate2)]
  { world := r.2.2,
    trace := [.PcdGet32 .PcdCpuClock] ++ s1.2.2 ++ s2.2 ++ s3,
    TargetRate := Rate1 }

/-- `ConfigInitialize` (lines 200-234).  The result is `none` when the
function does not return: a failing `ASSERT_EFI_ERROR` that halts, or the
call through a null `mFwProtocol` in `ApplyVariables`. -/
def ConfigInitialize {W : Type} (B : BootServices W) (P : VariableServices W) (w : W) :
    Option (Outcome W EFI_STATUS) :=
  let l := B.LocateProtocol w
  let Status := l.1 % UINTN_MOD
  let mFwProtocol := l.2.1
  if EFI_ERROR Status then
    if B.AssertHalts then none
    else some { ret := Status, world := l.2.2, trace := [.LocateProtocol] }
  else
    let s := SetupVariables P l.2.2
    let t1 : List Event :=
      if s.ret ≠ EFI_SUCCESS then [.DEBUG (.CouldntSetupVars s.ret)] else []
    match mFwProtocol with
    | none => none
    | some fw =>
      let a := ApplyVariables P fw s.world
      let h := InstallHiiPages B a.world
      let t2 : List Event :=
        if h.ret ≠ EFI_SUCCESS then [.DEBUG (.CouldntInstallPages h.ret)] else []
      some { ret := EFI_SUCCESS, world := h.world,
             trace := [.LocateProtocol] ++ s.trace ++ t1 ++ a.trace ++ h.trace ++ t2 }

/-! ## A model of the variable store -/

/-- The name of the variable behind each PCD token: the name the block of
`SetupVariables` for that token passes to `GetVariable`. -/
def PcdToken.VariableName : PcdToken → String
  | .PcdHypEnable => "HypEnable"
  | .PcdHypLogMask => "HypLogMask"
  | .PcdHypWindowsDebugHook => "HypWindowsDebugHook"
  | .PcdHypWin2000Mask => "HypWin2000Mask"
  | .PcdCpuClock => "CpuClock"

/-- A stored variable: its size in bytes and its content read as a
little-endian number. -/
structure Variable where
  DataSize : Nat
  Data : Nat
  deriving DecidableEq, Repr

/-- Modelled from the spec: the persistent store of section 6, a key-value
store keyed by the variable name (the namespace is the same for every
variable of the driver), with injected faults: a read of a name in
`readFails` is a store error, a write of a name in `writeFails` is a store
error and stores nothing. -/
structure Store where
  vars : String → Option Variable
  readFails : String → Bool
  writeFails : String → Bool

/-- Modelled from the spec: `Get` of section 6, with the result codes
`StoreError`, `NotFound` and `SizeMismatch` written as the statuses
`EFI_DEVICE_ERROR`, `EFI_NOT_FOUND` and `EFI_BUFFER_TOO_SMALL`.  A read
does not change the store. -/
def Store.GetVariable (st : Store) (VariableName : String) (DataSize : Nat) : EFI_STATUS :=
  if st.readFails VariableName then EFI_DEVICE_ERROR
  else
    match st.vars VariableName with
    | none => EFI_NOT_FOUND
    | some v => if v.DataSize = DataSize then EFI_SUCCESS else EFI_BUFFER_TOO_SMALL

/-- Modelled from the spec: `Set` of section 6 for a 4-byte value.  A failing
write leaves the store as it is; a successful one replaces the variable. -/
def Store.SetVariable32 (st : Store) (VariableName : String) (Value : Nat) : Store :=
  if st.writeFails VariableName then st
  else
    { st with vars := fun n =>
        if n = VariableName then some { DataSize := 4, Data := Value % UINT32_MOD }
        else st.vars n }

/-- Modelled from the spec: `PcdGet32` of a token is the persisted value of
its variable when the store can read it as 4 bytes, and the compiled default
of the token otherwise ("the persisted/default CPU clock policy code",
"the compiled default value"). -/
def Store.PcdGet32 (Default : PcdToken → Nat) (Token : PcdToken) (st : Store) : Nat :=
  if EFI_ERROR (st.GetVariable Token.VariableName 4) then Default Token % UINT32_MOD
  else
    match st.vars Token.VariableName with
    | none => Default Token % UINT32_MOD
    | some v => v.Data % UINT32_MOD

/-- Modelled from the spec: the variable services over the store model, for
compiled defaults `Default`.  `PcdSet32` writes the variable of the token. -/
def StoreServices (Default : PcdToken → Nat) : VariableServices Store where
  GetVariable := fun n size st => (st.GetVariable n size, st)
  PcdGet32 := Store.PcdGet32 Default
  PcdSet32 := fun t v st => st.SetVariable32 t.VariableName v

/-- The store with nothing in it and no faults. -/
def Store.empty : Store where
  vars := fun _ => none
  readFails := fun _ => false
  writeFails := fun _ => false

/-- The read of the variable of `Token` with a 4-byte buffer succeeds. -/
def Store.Readable (st : Store) (Token : PcdToken) : Prop :=
  EFI_ERROR (st.GetVariable Token.VariableName 4) = false

instance (st : Store) (Token : PcdToken) : Decidable (st.Readable Token) := by
  unfold Store.Readable; infer_instance

/-- The events of a trace that write the variable of `Token`. -/
def writesOf (Token : PcdToken) (trace : List Event) : List Event :=
  trace.filter fun e =>
    match e with
    | .PcdSet32 t _ => decide (t = Token)
    | _ => false

/-- The events of a trace that read the variable of `Token` from the store. -/
def readsOf (Token : PcdToken) (trace : List Event) : List Event :=
  trace.filter fun e =>
    match e with
    | .GetVariable n _ => decide (n = Token.VariableName)
    | _ => false

/-- Every variable of the driver in the order `SetupVariables` handles them. -/
def allTokens : List PcdToken :=
  [.PcdHypEnable, .PcdHypLogMask, .PcdHypWindowsDebugHook, .PcdHypWin2000Mask, .PcdCpuClock]

/-- The blocks of `SetupVariables` for a list of tokens, one after the other:
the world left and the events issued. -/
def runBlocks {W : Type} (P : VariableServices W) : List PcdToken → W → W × List Event
  | [], w => (w, [])
  | t :: ts, w =>
    let b := SetupVariablesBlock P t.VariableName t w
    let r := runBlocks P ts b.world
    (r.1, b.trace ++ r.2)

/-- What the store holds for the variable of `Token` after its block has run
on the store `st`: the old content when the read succeeds or the write fails,
the compiled default as a 4-byte value otherwise. -/
def Store.seeded (Default : PcdToken → Nat) (st : Store) (Token : PcdToken) : Option Variable :=
  if st.Readable Token then st.vars Token.VariableName
  else if st.writeFails Token.VariableName then st.vars Token.VariableName
  else some { DataSize := 4, Data := Default Token % UINT32_MOD }

/-! ## Sample collaborators -/

/-- A clock service whose maximum-rate query succeeds and reports rate 0. -/
def fwMaxZero : RASPBERRY_PI_FIRMWARE_PROTOCOL Store where
  GetMaxClockRate := fun _ _ w => (EFI_SUCCESS, 0, w)
  SetClockRate := fun _ _ w => (EFI_SUCCESS, w)
  GetClockRate := fun _ _ w => (EFI_SUCCESS, 1200000000, w)

/-- A clock service whose maximum-rate query fails with `EFI_DEVICE_ERROR`
after it has written 700 MHz into its output argument. -/
def fwMaxFailsDirty : RASPBERRY_PI_FIRMWARE_PROTOCOL Store where
  GetMaxClockRate := fun _ _ w => (EFI_DEVICE_ERROR, 700000000, w)
  SetClockRate := fun _ _ w => (EFI_SUCCESS, w)
  GetClockRate := fun _ _ w => (EFI_SUCCESS, 1200000000, w)

/-- A clock service every call of which fails with `EFI_DEVICE_ERROR` and
leaves its output argument as it was. -/
def fwFailing : RASPBERRY_PI_FIRMWARE_PROTOCOL Store where
  GetMaxClockRate := fun _ r w => (EFI_DEVICE_ERROR, r, w)
  SetClockRate := fun _ _ w => (EFI_DEVICE_ERROR, w)
  GetClockRate := fun _ r w => (EFI_DEVICE_ERROR, r, w)

/-- Boot services whose protocol lookup fails with `EFI_NOT_FOUND`, in a
build where a failing assertion does nothing. -/
def bootLookupFails : BootServices Store where
  LocateProtocol := fun w => (EFI_NOT_FOUND, none, w)
  InstallMultipleProtocolInterfaces := fun w => (EFI_SUCCESS, 1, w)
  HiiAddPackages := fun _ w => (1, w)
  UninstallMultipleProtocolInterfaces := fun _ w => (EFI_SUCCESS, w)
  AssertHalts := false

/-- Boot services whose protocol lookup finds the failing clock service and
whose `HiiAddPackages` returns `NULL`. -/
def bootPagesFail : BootServices Store where
  LocateProtocol := fun w => (EFI_SUCCESS, some fwFailing, w)
  InstallMultipleProtocolInterfaces := fun w => (EFI_SUCCESS, 1, w)
  HiiAddPackages := fun _ w => (NULL, w)
  UninstallMultipleProtocolInterfaces := fun _ w => (EFI_DEVICE_ERROR, w)
  AssertHalts := true

/-- The store that holds only the CPU clock policy, with value `Code`. -/
def storeWithPolicy (Code : Nat) : Store where
  vars := fun n => if n = "CpuClock" then some { DataSize := 4, Data := Code } else none
  readFails := fun _ => false
  writeFails := fun _ => false

/-- The store with nothing in it whose writes fail for the variable of
`Token` and for no other name. -/
def storeWriteFailing (Token : PcdToken) : Store where
  vars := fun _ => none
  readFails := fun _ => false
  writeFails := fun n => decide (n = Token.VariableName)

/-- A machine for the examples: the variable store, the rate the ARM clock
runs at, and the calls its clock service has served, in order. -/
structure Machine where
  store : Store
  armRate : Nat
  served : List Event

/-- The variable services of the store model, on a machine. -/
def MachineServices (Default : PcdToken → Nat) : VariableServices Machine where
  GetVariable := fun n size m => (m.store.GetVariable n size, m)
  PcdGet32 := fun t m => Store.PcdGet32 Default t m.store
  PcdSet32 := fun t v m => { m with store := m.store.SetVariable32 t.VariableName v }

/-- A clock service on a machine whose maximum-rate query returns the status
`MaxStatus` and, when that is `EFI_SUCCESS`, the rate `MaxRate` (otherwise it
leaves its output argument as it was): every call is recorded in `served`,
`SetClockRate` sets the rate of the clock and `GetClockRate` reports it. -/
def fwMachine (MaxStatus : EFI_STATUS) (MaxRate : Nat) :
    RASPBERRY_PI_FIRMWARE_PROTOCOL Machine where
  GetMaxClockRate := fun id r m =>
    (MaxStatus, if MaxStatus = EFI_SUCCESS then MaxRate else r,
      { m with served := m.served ++ [.GetMaxClockRate id] })
  SetClockRate := fun id r m =>
    (EFI_SUCCESS, { m with armRate := r, served := m.served ++ [.SetClockRate id r] })
  GetClockRate := fun id _ m =>
    (EFI_SUCCESS, m.armRate, { m with served := m.served ++ [.GetClockRate id] })

/-- The working clock service with a maximum rate of 1.4 GHz. -/
def fwMax1400 : RASPBERRY_PI_FIRMWARE_PROTOCOL Machine := fwMachine EFI_SUCCESS 1400000000

/-- The clock service whose maximum-rate query succeeds and reports rate 0. -/
def fwMax0 : RASPBERRY_PI_FIRMWARE_PROTOCOL Machine := fwMachine EFI_SUCCESS 0

/-- The clock service whose maximum-rate query fails with `EFI_DEVICE_ERROR`. -/
def fwMaxError : RASPBERRY_PI_FIRMWARE_PROTOCOL Machine := fwMachine EFI_DEVICE_ERROR 0

/-- A current-rate query on a machine that is recorded like the working one
but fails with `EFI_DEVICE_ERROR` and leaves its output argument as it was. -/
def getClockRateFailingMachine : Nat → Nat → Machine → EFI_STATUS × Nat × Machine :=
  fun id r m => (EFI_DEVICE_ERROR, r, { m with served := m.served ++ [.GetClockRate id] })

/-- The machine whose store holds only the CPU clock policy `Code`, with the
ARM clock at 1.2 GHz and no call served yet. -/
def machineWithPolicy (Code : Nat) : Machine where
  store := storeWithPolicy Code
  armRate := 1200000000
  served := []

/-- Compiled defaults used in the examples: every setting defaults to 0. -/
def defaultsZero : PcdToken → Nat := fun _ => 0

/-- The variable services of the examples on a machine: every compiled default
is 0. -/
def sampleServices : VariableServices Machine := MachineServices defaultsZero

/-! ## The clock policy -/

/-- Dropping the last element of a list that ends in one of two pairs with the
same first component. -/
theorem dropLast_append_ite_pair {α : Type} (A : List α) (c : Prop) [Decidable c]
    (G D1 D2 : α) :
    (A ++ (if c then [G, D1] else [G, D2])).dropLast = A ++ [G] := by
  split_ifs <;> simp [List.dropLast_append_cons]

/-- The last element of a list that ends in one of two pairs. -/
theorem getLast?_append_ite_pair {α : Type} (A : List α) (c : Prop) [Decidable c]
    (G D1 D2 : α) :
    (A ++ (if c then [G, D1] else [G, D2])).getLast? = some (if c then D1 else D2) := by
  split_ifs <;> simp [List.getLast?_append]

/-- The target rate `ApplyVariables` resolves, by policy code. -/
theorem ApplyVariables_TargetRate {W : Type} (P : VariableServices W)
    (fw : RASPBERRY_PI_FIRMWARE_PROTOCOL W) (w : W) :
    (ApplyVariables P fw w).TargetRate =
      if P.PcdGet32 .PcdCpuClock w % UINT32_MOD = 0 then 0
      else if P.PcdGet32 .PcdCpuClock w % UINT32_MOD = 2 then
        (fw.GetMaxClockRate RPI_FW_CLOCK_RATE_ARM 0 w).2.1 % UINT32_MOD
      else 600000000 := by
  unfold ApplyVariables
  by_cases h0 : P.PcdGet32 .PcdCpuClock w % UINT32_MOD = 0
  · simp [h0]
  · by_cases h2 : P.PcdGet32 .PcdCpuClock w % UINT32_MOD = 2
    · by_cases hs : (fw.GetMaxClockRate RPI_FW_CLOCK_RATE_ARM 0 w).1 % UINTN_MOD = EFI_SUCCESS
      · simp [h2, hs]
      · simp [h2, hs]
    · simp [h0, h2]

/-- The clock-service calls of `ApplyVariables`: the maximum-rate query when
the policy code is 2, the rate request when the target rate is not 0, and the
final current-rate query. -/
theorem ApplyVariables_clockCalls {W : Type} (P : VariableServices W)
    (fw : RASPBERRY_PI_FIRMWARE_PROTOCOL W) (w : W) :
    clockCalls (ApplyVariables P fw w).trace =
      (if P.PcdGet32 .PcdCpuClock w % UINT32_MOD = 2
        then [Event.GetMaxClockRate RPI_FW_CLOCK_RATE_ARM] else []) ++
      (if (ApplyVariables P fw w).TargetRate = 0 then []
        else [Event.SetClockRate RPI_FW_CLOCK_RATE_ARM (ApplyVariables P fw w).TargetRate]) ++
      [Event.GetClockRate RPI_FW_CLOCK_RATE_ARM] := by
  rw [ApplyVariables_TargetRate]
  unfold ApplyVariables
  simp only [clockCalls]
  split_ifs <;> simp_all [Event.isClockCall]

/-- The world `ApplyVariables` leaves: the world after the final
`GetClockRate`, called with the target rate in `Rate`, after `SetClockRate`
when the target rate is not 0, after `GetMaxClockRate` when the policy code
is 2. -/
theorem ApplyVariables_world {W : Type} (P : VariableServices W)
    (fw : RASPBERRY_PI_FIRMWARE_PROTOCOL W) (w : W) :
    let T := (ApplyVariables P fw w).TargetRate
    let w1 := if P.PcdGet32 .PcdCpuClock w % UINT32_MOD = 2
      then (fw.GetMaxClockRate RPI_FW_CLOCK_RATE_ARM 0 w).2.2 else w
    let w2 := if T = 0 then w1 else (fw.SetClockRate RPI_FW_CLOCK_RATE_ARM T w1).2
    let q := fw.GetClockRate RPI_FW_CLOCK_RATE_ARM T w2
    (ApplyVariables P fw w).world = q.2.2 := by
  intro T w1 w2 q
  simp only [q, w2, w1, T]
  rw [ApplyVariables_TargetRate]
  unfold ApplyVariables
  simp only []
  split_ifs <;> simp_all

/-- The last event of `ApplyVariables`: the log line of the final
`GetClockRate`, the error line with its status when the status is not
`EFI_SUCCESS`, the line with the rate it returned otherwise. -/
theorem ApplyVariables_lastLine {W : Type} (P : VariableServices W)
    (fw : RASPBERRY_PI_FIRMWARE_PROTOCOL W) (w : W) :
    let T := (ApplyVariables P fw w).TargetRate
    let w1 := if P.PcdGet32 .PcdCpuClock w % UINT32_MOD = 2
      then (fw.GetMaxClockRate RPI_FW_CLOCK_RATE_ARM 0 w).2.2 else w
    let w2 := if T = 0 then w1 else (fw.SetClockRate RPI_FW_CLOCK_RATE_ARM T w1).2
    let q := fw.GetClockRate RPI_FW_CLOCK_RATE_ARM T w2
    (ApplyVariables P fw w).trace.getLast? =
      some (.DEBUG
        (if q.1 % UINTN_MOD ≠ EFI_SUCCESS then .CouldntGetSpeed (q.1 % UINTN_MOD)
          else .CurrentSpeed (q.2.1 % UINT32_MOD))) := by
  intro T w1 w2 q
  simp only [q, w2, w1, T]
  by_cases h0 : P.PcdGet32 .PcdCpuClock w % UINT32_MOD = 0
  · have ht : (ApplyVariables P fw w).TargetRate = 0 := by
      rw [ApplyVariables_TargetRate]; simp [h0]
    rw [ht]
    unfold ApplyVariables
    simp only [h0, getLast?_append_ite_pair]
    simp
    split_ifs <;> simp_all
  · by_cases h2 : P.PcdGet32 .PcdCpuClock w % UINT32_MOD = 2
    · have ht : (ApplyVariables P fw w).TargetRate =
          (fw.GetMaxClockRate RPI_FW_CLOCK_RATE_ARM 0 w).2.1 % UINT32_MOD := by
        rw [ApplyVariables_TargetRate]; simp [h2]
      rw [ht]
      by_cases hr : (fw.GetMaxClockRate RPI_FW_CLOCK_RATE_ARM 0 w).2.1 % UINT32_MOD = 0
      · unfold ApplyVariables
        simp only [h2, hr, getLast?_append_ite_pair]
        simp
        split_ifs <;> simp_all
      · unfold ApplyVariables
        simp only [h2, hr, getLast?_append_ite_pair]
        simp
        split_ifs <;> simp_all
    · have ht : (ApplyVariables P fw w).TargetRate = 600000000 := by
        rw [ApplyVariables_TargetRate]; simp [h0, h2]
      rw [ht]
      unfold ApplyVariables
      simp only [h0, h2, getLast?_append_ite_pair]
      simp
      split_ifs <;> simp_all

/-- The log lines of `ApplyVariables` with policy code 2 start with the error
line of the maximum-rate query, carrying its status, when that query does not
return `EFI_SUCCESS`. -/
theorem ApplyVariables_maxLine {W : Type} (P : VariableServices W)
    (fw : RASPBERRY_PI_FIRMWARE_PROTOCOL W) (w : W)
    (h2 : P.PcdGet32 .PcdCpuClock w % UINT32_MOD = 2)
    (hs : (fw.GetMaxClockRate RPI_FW_CLOCK_RATE_ARM 0 w).1 % UINTN_MOD ≠ EFI_SUCCESS) :
    (debugLines (ApplyVariables P fw w).trace).head? =
      some (.CouldntGetMaxSpeed
        ((fw.GetMaxClockRate RPI_FW_CLOCK_RATE_ARM 0 w).1 % UINTN_MOD)) := by
  unfold ApplyVariables
  simp [h2, hs, debugLines]

/-- The requests of a trace: there is a `SetClockRate` event in a trace
exactly when there is one among its clock-service calls. -/
theorem mem_clockCalls_SetClockRate (id r : Nat) (tr : List Event) :
    Event.SetClockRate id r ∈ clockCalls tr ↔ Event.SetClockRate id r ∈ tr := by
  simp [clockCalls, Event.isClockCall]

/-- C4: for a policy code other than 0 and 2, whatever the clock service does,
the clock-service calls of `ApplyVariables` are exactly one `SetClockRate` for
the ARM clock with rate 600,000,000 followed by the final `GetClockRate`; in
particular `GetMaxClockRate` is not called.  The world left is the one that
`SetClockRate` of the service, applied to the ARM clock and 600,000,000 in
the initial world, and then `GetClockRate` of the service leave. -/
theorem ApplyVariables_fixed {W : Type} (P : VariableServices W)
    (fw : RASPBERRY_PI_FIRMWARE_PROTOCOL W) (w : W)
    (h0 : P.PcdGet32 .PcdCpuClock w % UINT32_MOD ≠ 0)
    (h2 : P.PcdGet32 .PcdCpuClock w % UINT32_MOD ≠ 2) :
    clockCalls (ApplyVariables P fw w).trace =
        [.SetClockRate RPI_FW_CLOCK_RATE_ARM 600000000,
         .GetClockRate RPI_FW_CLOCK_RATE_ARM] ∧
      (ApplyVariables P fw w).TargetRate = 600000000 ∧
      (ApplyVariables P fw w).world =
        (fw.GetClockRate RPI_FW_CLOCK_RATE_ARM 600000000
          (fw.SetClockRate RPI_FW_CLOCK_RATE_ARM 600000000 w).2).2.2 := by
  have ht : (ApplyVariables P fw w).TargetRate = 600000000 := by
    rw [ApplyVariables_TargetRate]; simp [h0, h2]
  refine ⟨?_, ht, ?_⟩
  · rw [ApplyVariables_clockCalls, ht]
    simp [h2]
  · rw [ApplyVariables_world, ht]
    simp [h2]

/-- Witness of C4 at policy code 7 (scenario C of the spec): the clock service
has served one request for 600 MHz and the final query, and the clock runs at
600 MHz. -/
theorem ApplyVariables_fixed_witness :
    sampleServices.PcdGet32 .PcdCpuClock (machineWithPolicy 7) % UINT32_MOD ≠ 0 ∧
    sampleServices.PcdGet32 .PcdCpuClock (machineWithPolicy 7) % UINT32_MOD ≠ 2 ∧
    (ApplyVariables sampleServices fwMax1400 (machineWithPolicy 7)).world.served =
      [.SetClockRate RPI_FW_CLOCK_RATE_ARM 600000000, .GetClockRate RPI_FW_CLOCK_RATE_ARM] ∧
    (ApplyVariables sampleServices fwMax1400 (machineWithPolicy 7)).world.armRate = 600000000 ∧
    clockCalls (ApplyVariables sampleServices fwMax1400 (machineWithPolicy 7)).trace =
        [.SetClockRate RPI_FW_CLOCK_RATE_ARM 600000000,
         .GetClockRate RPI_FW_CLOCK_RATE_ARM] ∧
      (ApplyVariables sampleServices fwMax1400 (machineWithPolicy 7)).TargetRate = 600000000 ∧
      (ApplyVariables sampleServices fwMax1400 (machineWithPolicy 7)).world =
        (fwMax1400.GetClockRate RPI_FW_CLOCK_RATE_ARM 600000000
          (fwMax1400.SetClockRate RPI_FW_CLOCK_RATE_ARM 600000000 (machineWithPolicy 7)).2).2.2 :=
  ⟨by decide, by decide, by decide, by decide,
   ApplyVariables_fixed sampleServices fwMax1400 (machineWithPolicy 7)
     (by decide) (by decide)⟩

/-- C5 as stated fails at rate 0: with policy code 2 and a maximum-rate
query that succeeds and returns 0, `ApplyVariables` does not call
`SetClockRate` at all. -/
theorem ApplyVariables_maximum_zero_counterexample :
    (StoreServices defaultsZero).PcdGet32 .PcdCpuClock (storeWithPolicy 2) % UINT32_MOD = 2 ∧
    (fwMaxZero.GetMaxClockRate RPI_FW_CLOCK_RATE_ARM 0 (storeWithPolicy 2)).1 % UINTN_MOD =
      EFI_SUCCESS ∧
    (fwMaxZero.GetMaxClockRate RPI_FW_CLOCK_RATE_ARM 0 (storeWithPolicy 2)).2.1 % UINT32_MOD = 0 ∧
    Event.SetClockRate RPI_FW_CLOCK_RATE_ARM 0 ∉
      (ApplyVariables (StoreServices defaultsZero) fwMaxZero (storeWithPolicy 2)).trace ∧
    clockCalls (ApplyVariables (StoreServices defaultsZero) fwMaxZero (storeWithPolicy 2)).trace =
      [.GetMaxClockRate RPI_FW_CLOCK_RATE_ARM, .GetClockRate RPI_FW_CLOCK_RATE_ARM] := by
  decide

/-- C5, amended: with policy code 2, the first clock-service call of
`ApplyVariables` is `GetMaxClockRate` for the ARM clock (when that query does
not return `EFI_SUCCESS`, the first log line is its error line with the status
it returned).  When the query succeeds with a rate `R` other than 0, the
clock-service calls are the query, exactly one `SetClockRate` for the ARM
clock with rate `R`, and the final `GetClockRate`, and the world left is the
one these three calls of the service leave, in this order.  When the query
succeeds with rate 0, that rate is not requested: the clock-service calls are
the query and the final `GetClockRate`, there is no `SetClockRate` event, and
the world left is the one these two calls leave. -/
theorem ApplyVariables_maximum {W : Type} (P : VariableServices W)
    (fw : RASPBERRY_PI_FIRMWARE_PROTOCOL W) (w : W)
    (h2 : P.PcdGet32 .PcdCpuClock w % UINT32_MOD = 2) :
    (clockCalls (ApplyVariables P fw w).trace).head? =
        some (.GetMaxClockRate RPI_FW_CLOCK_RATE_ARM) ∧
      ((fw.GetMaxClockRate RPI_FW_CLOCK_RATE_ARM 0 w).1 % UINTN_MOD ≠ EFI_SUCCESS →
        (debugLines (ApplyVariables P fw w).trace).head? =
        some (.CouldntGetMaxSpeed ((fw.GetMaxClockRate RPI_FW_CLOCK_RATE_ARM 0 w).1 % UINTN_MOD))) ∧
      ((fw.GetMaxClockRate RPI_FW_CLOCK_RATE_ARM 0 w).1 % UINTN_MOD = EFI_SUCCESS →
        (fw.GetMaxClockRate RPI_FW_CLOCK_RATE_ARM 0 w).2.1 % UINT32_MOD ≠ 0 →
        clockCalls (ApplyVariables P fw w).trace =
          [.GetMaxClockRate RPI_FW_CLOCK_RATE_ARM,
           .SetClockRate RPI_FW_CLOCK_RATE_ARM
             ((fw.GetMaxClockRate RPI_FW_CLOCK_RATE_ARM 0 w).2.1 % UINT32_MOD),
           .GetClockRate RPI_FW_CLOCK_RATE_ARM] ∧
        (ApplyVariables P fw w).world =
          (fw.GetClockRate RPI_FW_CLOCK_RATE_ARM
            ((fw.GetMaxClockRate RPI_FW_CLOCK_RATE_ARM 0 w).2.1 % UINT32_MOD)
            (fw.SetClockRate RPI_FW_CLOCK_RATE_ARM
              ((fw.GetMaxClockRate RPI_FW_CLOCK_RATE_ARM 0 w).2.1 % UINT32_MOD)
              (fw.GetMaxClockRate RPI_FW_CLOCK_RATE_ARM 0 w).2.2).2).2.2) ∧
      ((fw.GetMaxClockRate RPI_FW_CLOCK_RATE_ARM 0 w).1 % UINTN_MOD = EFI_SUCCESS →
        (fw.GetMaxClockRate RPI_FW_CLOCK_RATE_ARM 0 w).2.1 % UINT32_MOD = 0 →
        clockCalls (ApplyVariables P fw w).trace =
          [.GetMaxClockRate RPI_FW_CLOCK_RATE_ARM,
           .GetClockRate RPI_FW_CLOCK_RATE_ARM] ∧
        (∀ id r, Event.SetClockRate id r ∉ (ApplyVariables P fw w).trace) ∧
        (ApplyVariables P fw w).world =
          (fw.GetClockRate RPI_FW_CLOCK_RATE_ARM 0
            (fw.GetMaxClockRate RPI_FW_CLOCK_RATE_ARM 0 w).2.2).2.2) := by
  have ht : (ApplyVariables P fw w).TargetRate =
      (fw.GetMaxClockRate RPI_FW_CLOCK_RATE_ARM 0 w).2.1 % UINT32_MOD := by
    rw [ApplyVariables_TargetRate]; simp [h2]
  refine ⟨?_, ?_, ?_, ?_⟩
  · rw [ApplyVariables_clockCalls, ht]
    simp [h2]
  · intro hs
    exact ApplyVariables_maxLine P fw w h2 hs
  · intro _ hr
    constructor
    · rw [ApplyVariables_clockCalls, ht]
      simp [h2, hr]
    · rw [ApplyVariables_world, ht]
      simp [h2, hr]
  · intro _ hr
    have hc : clockCalls (ApplyVariables P fw w).trace =
        [.GetMaxClockRate RPI_FW_CLOCK_RATE_ARM, .GetClockRate RPI_FW_CLOCK_RATE_ARM] := by
      rw [ApplyVariables_clockCalls, ht]
      simp [h2, hr]
    refine ⟨hc, ?_, ?_⟩
    · intro id r hm
      rw [← mem_clockCalls_SetClockRate, hc] at hm
      simp at hm
    · rw [ApplyVariables_world, ht]
      simp [h2, hr]

/-- Witness of the amended C5: a maximum rate of 1.4 GHz (scenario B of the
spec) is requested and the clock then runs at it; a maximum rate of 0 is not
requested and the clock stays at 1.2 GHz; a failing query is logged. -/
theorem ApplyVariables_maximum_witness :
    sampleServices.PcdGet32 .PcdCpuClock (machineWithPolicy 2) % UINT32_MOD = 2 ∧
    ((fwMax1400.GetMaxClockRate RPI_FW_CLOCK_RATE_ARM 0 (machineWithPolicy 2)).1 % UINTN_MOD =
        EFI_SUCCESS ∧
      (fwMax1400.GetMaxClockRate RPI_FW_CLOCK_RATE_ARM 0 (machineWithPolicy 2)).2.1 % UINT32_MOD ≠
          0 ∧
      (ApplyVariables sampleServices fwMax1400 (machineWithPolicy 2)).world.served =
        [.GetMaxClockRate RPI_FW_CLOCK_RATE_ARM, .SetClockRate RPI_FW_CLOCK_RATE_ARM 1400000000,
         .GetClockRate RPI_FW_CLOCK_RATE_ARM] ∧
      (ApplyVariables sampleServices fwMax1400 (machineWithPolicy 2)).world.armRate = 1400000000 ∧
      clockCalls (ApplyVariables sampleServices fwMax1400 (machineWithPolicy 2)).trace =
          [.GetMaxClockRate RPI_FW_CLOCK_RATE_ARM,
           .SetClockRate RPI_FW_CLOCK_RATE_ARM
             ((fwMax1400.GetMaxClockRate RPI_FW_CLOCK_RATE_ARM 0 (machineWithPolicy 2)).2.1 %
                 UINT32_MOD),
           .GetClockRate RPI_FW_CLOCK_RATE_ARM] ∧
        (ApplyVariables sampleServices fwMax1400 (machineWithPolicy 2)).world =
          (fwMax1400.GetClockRate RPI_FW_CLOCK_RATE_ARM
            ((fwMax1400.GetMaxClockRate RPI_FW_CLOCK_RATE_ARM 0 (machineWithPolicy 2)).2.1 %
                UINT32_MOD)
            (fwMax1400.SetClockRate RPI_FW_CLOCK_RATE_ARM
              ((fwMax1400.GetMaxClockRate RPI_FW_CLOCK_RATE_ARM 0 (machineWithPolicy 2)).2.1 %
                  UINT32_MOD)
              (fwMax1400.GetMaxClockRate RPI_FW_CLOCK_RATE_ARM 0 (machineWithPolicy
                  2)).2.2).2).2.2) ∧
    ((fwMax0.GetMaxClockRate RPI_FW_CLOCK_RATE_ARM 0 (machineWithPolicy 2)).1 % UINTN_MOD =
        EFI_SUCCESS ∧
      (fwMax0.GetMaxClockRate RPI_FW_CLOCK_RATE_ARM 0 (machineWithPolicy 2)).2.1 % UINT32_MOD = 0 ∧
      (ApplyVariables sampleServices fwMax0 (machineWithPolicy 2)).world.served =
        [.GetMaxClockRate RPI_FW_CLOCK_RATE_ARM, .GetClockRate RPI_FW_CLOCK_RATE_ARM] ∧
      (ApplyVariables sampleServices fwMax0 (machineWithPolicy 2)).world.armRate = 1200000000 ∧
      clockCalls (ApplyVariables sampleServices fwMax0 (machineWithPolicy 2)).trace =
          [.GetMaxClockRate RPI_FW_CLOCK_RATE_ARM,
           .GetClockRate RPI_FW_CLOCK_RATE_ARM] ∧
        (∀ id r, Event.SetClockRate id r ∉ (ApplyVariables sampleServices fwMax0
            (machineWithPolicy 2)).trace) ∧
        (ApplyVariables sampleServices fwMax0 (machineWithPolicy 2)).world =
          (fwMax0.GetClockRate RPI_FW_CLOCK_RATE_ARM 0
            (fwMax0.GetMaxClockRate RPI_FW_CLOCK_RATE_ARM 0 (machineWithPolicy 2)).2.2).2.2) ∧
    ((fwMaxError.GetMaxClockRate RPI_FW_CLOCK_RATE_ARM 0 (machineWithPolicy 2)).1 % UINTN_MOD ≠
        EFI_SUCCESS ∧
      (clockCalls (ApplyVariables sampleServices fwMaxError (machineWithPolicy 2)).trace).head? =
        some (.GetMaxClockRate RPI_FW_CLOCK_RATE_ARM) ∧
      (debugLines (ApplyVariables sampleServices fwMaxError (machineWithPolicy 2)).trace).head? =
        some (.CouldntGetMaxSpeed ((fwMaxError.GetMaxClockRate RPI_FW_CLOCK_RATE_ARM 0
            (machineWithPolicy 2)).1 % UINTN_MOD))) :=
  ⟨by decide,
   ⟨by decide, by decide, by decide, by decide,
    (ApplyVariables_maximum sampleServices fwMax1400 (machineWithPolicy 2)
      (by decide)).2.2.1 (by decide) (by decide)⟩,
   ⟨by decide, by decide, by decide, by decide,
    (ApplyVariables_maximum sampleServices fwMax0 (machineWithPolicy 2)
      (by decide)).2.2.2 (by decide) (by decide)⟩,
   ⟨by decide,
    (ApplyVariables_maximum sampleServices fwMaxError (machineWithPolicy 2)
      (by decide)).1,
    (ApplyVariables_maximum sampleServices fwMaxError (machineWithPolicy 2)
      (by decide)).2.1 (by decide)⟩⟩

/-- C6, the code at the failing input: with policy code 2 and a maximum-rate
query that fails with `EFI_DEVICE_ERROR` after writing 700,000,000 into its
output argument, the target rate is 700,000,000 and `ApplyVariables` calls
`SetClockRate` with it. -/
theorem ApplyVariables_maximum_failure_dirty :
    (StoreServices defaultsZero).PcdGet32 .PcdCpuClock (storeWithPolicy 2) % UINT32_MOD = 2 ∧
    (fwMaxFailsDirty.GetMaxClockRate RPI_FW_CLOCK_RATE_ARM 0 (storeWithPolicy 2)).1 % UINTN_MOD ≠
      EFI_SUCCESS ∧
    (ApplyVariables (StoreServices defaultsZero) fwMaxFailsDirty (storeWithPolicy 2)).TargetRate =
      700000000 ∧
    clockCalls
        (ApplyVariables (StoreServices defaultsZero) fwMaxFailsDirty (storeWithPolicy 2)).trace =
      [.GetMaxClockRate RPI_FW_CLOCK_RATE_ARM,
       .SetClockRate RPI_FW_CLOCK_RATE_ARM 700000000,
       .GetClockRate RPI_FW_CLOCK_RATE_ARM] ∧
    debugLines
        (ApplyVariables (StoreServices defaultsZero) fwMaxFailsDirty (storeWithPolicy 2)).trace =
      [.CouldntGetMaxSpeed EFI_DEVICE_ERROR, .SettingSpeed 700000000,
       .CurrentSpeed 1200000000] := by
  decide

/-- With policy code 2 and a maximum-rate query that fails and leaves 0 in
its output argument, the target rate is 0 and `SetClockRate` is not called. -/
theorem ApplyVariables_maximum_failure_clean {W : Type} (P : VariableServices W)
    (fw : RASPBERRY_PI_FIRMWARE_PROTOCOL W) (w : W)
    (h2 : P.PcdGet32 .PcdCpuClock w % UINT32_MOD = 2)
    (hr : (fw.GetMaxClockRate RPI_FW_CLOCK_RATE_ARM 0 w).2.1 % UINT32_MOD = 0) :
    (ApplyVariables P fw w).TargetRate = 0 ∧
      clockCalls (ApplyVariables P fw w).trace =
        [.GetMaxClockRate RPI_FW_CLOCK_RATE_ARM, .GetClockRate RPI_FW_CLOCK_RATE_ARM] := by
  have ht : (ApplyVariables P fw w).TargetRate = 0 := by
    rw [ApplyVariables_TargetRate]; simp [h2, hr]
  refine ⟨ht, ?_⟩
  rw [ApplyVariables_clockCalls, ht]
  simp [h2]

/-- C7: with policy code 0, whatever the clock service does, the target rate
is 0 and the only clock-service call of `ApplyVariables` is the final
`GetClockRate` for the ARM clock: neither `GetMaxClockRate` nor
`SetClockRate` is called, and the world left is the one that `GetClockRate`
of the service, applied in the initial world, leaves. -/
theorem ApplyVariables_unmanaged {W : Type} (P : VariableServices W)
    (fw : RASPBERRY_PI_FIRMWARE_PROTOCOL W) (w : W)
    (h0 : P.PcdGet32 .PcdCpuClock w % UINT32_MOD = 0) :
    (ApplyVariables P fw w).TargetRate = 0 ∧
      clockCalls (ApplyVariables P fw w).trace = [.GetClockRate RPI_FW_CLOCK_RATE_ARM] ∧
      (ApplyVariables P fw w).world = (fw.GetClockRate RPI_FW_CLOCK_RATE_ARM 0 w).2.2 := by
  have ht : (ApplyVariables P fw w).TargetRate = 0 := by
    rw [ApplyVariables_TargetRate]; simp [h0]
  refine ⟨ht, ?_, ?_⟩
  · rw [ApplyVariables_clockCalls, ht]
    simp [h0]
  · rw [ApplyVariables_world, ht]
    simp [h0]

/-- Witness of C7 at policy code 0: the clock service has served the final
query only and the clock still runs at 1.2 GHz. -/
theorem ApplyVariables_unmanaged_witness :
    sampleServices.PcdGet32 .PcdCpuClock (machineWithPolicy 0) % UINT32_MOD = 0 ∧
    (ApplyVariables sampleServices fwMax1400 (machineWithPolicy 0)).world.served =
      [.GetClockRate RPI_FW_CLOCK_RATE_ARM] ∧
    (ApplyVariables sampleServices fwMax1400 (machineWithPolicy 0)).world.armRate = 1200000000 ∧
    (ApplyVariables sampleServices fwMax1400 (machineWithPolicy 0)).TargetRate = 0 ∧
      clockCalls (ApplyVariables sampleServices fwMax1400 (machineWithPolicy 0)).trace =
          [.GetClockRate RPI_FW_CLOCK_RATE_ARM] ∧
      (ApplyVariables sampleServices fwMax1400 (machineWithPolicy 0)).world =
          (fwMax1400.GetClockRate RPI_FW_CLOCK_RATE_ARM 0 (machineWithPolicy 0)).2.2 :=
  ⟨by decide, by decide, by decide,
   ApplyVariables_unmanaged sampleServices fwMax1400 (machineWithPolicy 0)
     (by decide)⟩

/-- C8: for every policy code and every behaviour of the clock service, the
clock-service calls of `ApplyVariables` end with `GetClockRate` for the ARM
clock and contain no other `GetClockRate`.  That query is the last call of
the service: with `T` the target rate, `w1` the world after the maximum-rate
query (made when the policy code is 2) and `w2` the world after the rate
request (made when `T` is not 0), the world left is the one `GetClockRate` of
the service leaves when applied to the ARM clock in `w2`, and the last event
of the run is the log line of that query, the error line with its status or
the line with the rate it returned.  Replacing the query by one that returns
another status and rate (`g`, with the same effect on the world) changes
neither the world left, nor the target rate, nor the clock-service calls, nor
any event before that last log line. -/
theorem ApplyVariables_readback {W : Type} (P : VariableServices W)
    (fw : RASPBERRY_PI_FIRMWARE_PROTOCOL W) (w : W)
    (g : Nat → Nat → W → EFI_STATUS × Nat × W)
    (hg : ∀ id r x, (g id r x).2.2 = (fw.GetClockRate id r x).2.2) :
    let T := (ApplyVariables P fw w).TargetRate
    let w1 := if P.PcdGet32 .PcdCpuClock w % UINT32_MOD = 2
      then (fw.GetMaxClockRate RPI_FW_CLOCK_RATE_ARM 0 w).2.2 else w
    let w2 := if T = 0 then w1 else (fw.SetClockRate RPI_FW_CLOCK_RATE_ARM T w1).2
    let q := fw.GetClockRate RPI_FW_CLOCK_RATE_ARM T w2
    (∃ pre, clockCalls (ApplyVariables P fw w).trace =
        pre ++ [.GetClockRate RPI_FW_CLOCK_RATE_ARM] ∧ ∀ id, Event.GetClockRate id ∉ pre) ∧
    T =
      (if P.PcdGet32 .PcdCpuClock w % UINT32_MOD = 0 then 0
        else if P.PcdGet32 .PcdCpuClock w % UINT32_MOD = 2 then
          (fw.GetMaxClockRate RPI_FW_CLOCK_RATE_ARM 0 w).2.1 % UINT32_MOD
        else 600000000) ∧
    (ApplyVariables P fw w).world = q.2.2 ∧
    (ApplyVariables P fw w).trace.getLast? =
      some (.DEBUG
        (if q.1 % UINTN_MOD ≠ EFI_SUCCESS then .CouldntGetSpeed (q.1 % UINTN_MOD)
          else .CurrentSpeed (q.2.1 % UINT32_MOD))) ∧
    (ApplyVariables P { fw with GetClockRate := g } w).world =
      (ApplyVariables P fw w).world ∧
    (ApplyVariables P { fw with GetClockRate := g } w).TargetRate =
      (ApplyVariables P fw w).TargetRate ∧
    clockCalls (ApplyVariables P { fw with GetClockRate := g } w).trace =
      clockCalls (ApplyVariables P fw w).trace ∧
    (ApplyVariables P { fw with GetClockRate := g } w).trace.dropLast =
      (ApplyVariables P fw w).trace.dropLast := by
  intro T w1 w2 q
  refine ⟨?_, ApplyVariables_TargetRate P fw w, ApplyVariables_world P fw w,
    ApplyVariables_lastLine P fw w, ?_, ?_, ?_, ?_⟩
  · rw [ApplyVariables_clockCalls]
    refine ⟨_, rfl, ?_⟩
    intro id
    split_ifs <;> simp
  · simp only [ApplyVariables, hg]
  · simp only [ApplyVariables_TargetRate]
  · simp only [ApplyVariables_clockCalls, ApplyVariables_TargetRate]
  · simp only [ApplyVariables, dropLast_append_ite_pair]

/-- Witness of C8 at policy code 2: a working clock service against the same
service with a failing current-rate query.  Both runs serve the same three
calls and leave the clock at 1.4 GHz; only the last log line differs. -/
theorem ApplyVariables_readback_witness :
    (∀ id r x, (getClockRateFailingMachine id r x).2.2 =
      (fwMax1400.GetClockRate id r x).2.2) ∧
    (ApplyVariables sampleServices fwMax1400
        (machineWithPolicy 2)).world.served =
      [.GetMaxClockRate RPI_FW_CLOCK_RATE_ARM, .SetClockRate RPI_FW_CLOCK_RATE_ARM 1400000000,
       .GetClockRate RPI_FW_CLOCK_RATE_ARM] ∧
    debugLines (ApplyVariables sampleServices fwMax1400
        (machineWithPolicy 2)).trace =
      [.SettingSpeed 1400000000, .CurrentSpeed 1400000000] ∧
    debugLines (ApplyVariables sampleServices
        { fwMax1400 with GetClockRate := getClockRateFailingMachine }
        (machineWithPolicy 2)).trace =
      [.SettingSpeed 1400000000, .CouldntGetSpeed EFI_DEVICE_ERROR] ∧
    (
    let T := (ApplyVariables sampleServices fwMax1400 (machineWithPolicy 2)).TargetRate
    let w1 := if sampleServices.PcdGet32 .PcdCpuClock (machineWithPolicy 2) % UINT32_MOD = 2
      then (fwMax1400.GetMaxClockRate RPI_FW_CLOCK_RATE_ARM 0 (machineWithPolicy 2)).2.2 else
          (machineWithPolicy 2)
    let w2 := if T = 0 then w1 else (fwMax1400.SetClockRate RPI_FW_CLOCK_RATE_ARM T w1).2
    let q := fwMax1400.GetClockRate RPI_FW_CLOCK_RATE_ARM T w2
    (∃ pre, clockCalls (ApplyVariables sampleServices fwMax1400 (machineWithPolicy 2)).trace =
        pre ++ [.GetClockRate RPI_FW_CLOCK_RATE_ARM] ∧ ∀ id, Event.GetClockRate id ∉ pre) ∧
    T =
      (if sampleServices.PcdGet32 .PcdCpuClock (machineWithPolicy 2) % UINT32_MOD = 0 then 0
        else if sampleServices.PcdGet32 .PcdCpuClock (machineWithPolicy 2) % UINT32_MOD = 2 then
          (fwMax1400.GetMaxClockRate RPI_FW_CLOCK_RATE_ARM 0 (machineWithPolicy 2)).2.1 % UINT32_MOD
        else 600000000) ∧
    (ApplyVariables sampleServices fwMax1400 (machineWithPolicy 2)).world = q.2.2 ∧
    (ApplyVariables sampleServices fwMax1400 (machineWithPolicy 2)).trace.getLast? =
      some (.DEBUG
        (if q.1 % UINTN_MOD ≠ EFI_SUCCESS then .CouldntGetSpeed (q.1 % UINTN_MOD)
          else .CurrentSpeed (q.2.1 % UINT32_MOD))) ∧
    (ApplyVariables sampleServices { fwMax1400 with GetClockRate := getClockRateFailingMachine }
        (machineWithPolicy 2)).world =
      (ApplyVariables sampleServices fwMax1400 (machineWithPolicy 2)).world ∧
    (ApplyVariables sampleServices { fwMax1400 with GetClockRate := getClockRateFailingMachine }
        (machineWithPolicy 2)).TargetRate =
      (ApplyVariables sampleServices fwMax1400 (machineWithPolicy 2)).TargetRate ∧
    clockCalls (ApplyVariables sampleServices { fwMax1400 with GetClockRate :=
        getClockRateFailingMachine } (machineWithPolicy 2)).trace =
      clockCalls (ApplyVariables sampleServices fwMax1400 (machineWithPolicy 2)).trace ∧
    (ApplyVariables sampleServices { fwMax1400 with GetClockRate := getClockRateFailingMachine }
        (machineWithPolicy 2)).trace.dropLast =
      (ApplyVariables sampleServices fwMax1400 (machineWithPolicy 2)).trace.dropLast) :=
  ⟨fun _ _ _ => rfl, by decide, by decide, by decide,
   ApplyVariables_readback sampleServices fwMax1400 (machineWithPolicy 2)
     getClockRateFailingMachine (fun _ _ _ => rfl)⟩

/-! ## The variable bootstrap on the store model -/

theorem EFI_ERROR_mod (Status : EFI_STATUS) : EFI_ERROR (Status % UINTN_MOD) = EFI_ERROR Status :=
    by
  simp [EFI_ERROR]

theorem VariableName_inj (t s : PcdToken) : t.VariableName = s.VariableName ↔ t = s := by
  cases t <;> cases s <;> decide

theorem mem_allTokens (t : PcdToken) : t ∈ allTokens := by
  cases t <;> decide

theorem allTokens_nodup : allTokens.Nodup := by decide

/-- A read succeeds exactly when the store has no read fault for the name and
holds a 4-byte value under it. -/
theorem Readable_iff (st : Store) (t : PcdToken) :
    st.Readable t ↔
      st.readFails t.VariableName = false ∧
        ∃ v, st.vars t.VariableName = some v ∧ v.DataSize = 4 := by
  unfold Store.Readable Store.GetVariable
  cases hf : st.readFails t.VariableName
  · cases hv : st.vars t.VariableName with
    | none => simp; decide
    | some v =>
      by_cases hsz : v.DataSize = 4
      · simp [hsz]; decide
      · simp [hsz]; decide
  · simp; decide

/-- Readability of a variable depends only on its own entry and read fault. -/
theorem Readable_congr (a b : Store) (t : PcdToken)
    (hv : a.vars t.VariableName = b.vars t.VariableName)
    (hr : a.readFails t.VariableName = b.readFails t.VariableName) :
    a.Readable t ↔ b.Readable t := by
  rw [Readable_iff, Readable_iff, hv, hr]

/-- One block of `SetupVariables` on the store model. -/
theorem SetupVariablesBlock_store (D : PcdToken → Nat) (t : PcdToken) (st : Store) :
    SetupVariablesBlock (StoreServices D) t.VariableName t st =
      if st.Readable t then
        { ret := (), world := st, trace := [.GetVariable t.VariableName 4] }
      else
        { ret := (), world := st.SetVariable32 t.VariableName (D t % UINT32_MOD),
          trace := [.GetVariable t.VariableName 4, .PcdGet32 t,
                    .PcdSet32 t (D t % UINT32_MOD)] } := by
  unfold SetupVariablesBlock
  by_cases h : st.Readable t
  · have h1 : EFI_ERROR (st.GetVariable t.VariableName 4) = false := h
    simp [StoreServices, EFI_ERROR_mod, h, h1]
  · have h1 : EFI_ERROR (st.GetVariable t.VariableName 4) = true := by
      simpa [Store.Readable] using h
    simp [StoreServices, EFI_ERROR_mod, h, h1, Store.PcdGet32]

theorem SetVariable32_readFails (st : Store) (n : String) (v : Nat) :
    (st.SetVariable32 n v).readFails = st.readFails := by
  unfold Store.SetVariable32; split <;> rfl

theorem SetVariable32_writeFails (st : Store) (n : String) (v : Nat) :
    (st.SetVariable32 n v).writeFails = st.writeFails := by
  unfold Store.SetVariable32; split <;> rfl

theorem SetVariable32_vars_other (st : Store) (n m : String) (v : Nat) (h : m ≠ n) :
    (st.SetVariable32 n v).vars m = st.vars m := by
  unfold Store.SetVariable32; split <;> simp [h]

theorem block_readFails (D : PcdToken → Nat) (t : PcdToken) (st : Store) :
    (SetupVariablesBlock (StoreServices D) t.VariableName t st).world.readFails =
      st.readFails := by
  rw [SetupVariablesBlock_store]; split <;> simp [SetVariable32_readFails]

theorem block_writeFails (D : PcdToken → Nat) (t : PcdToken) (st : Store) :
    (SetupVariablesBlock (StoreServices D) t.VariableName t st).world.writeFails =
      st.writeFails := by
  rw [SetupVariablesBlock_store]; split <;> simp [SetVariable32_writeFails]

theorem block_vars_other (D : PcdToken → Nat) (t : PcdToken) (st : Store) (n : String)
    (h : n ≠ t.VariableName) :
    (SetupVariablesBlock (StoreServices D) t.VariableName t st).world.vars n = st.vars n := by
  rw [SetupVariablesBlock_store]; split <;> simp [SetVariable32_vars_other, h]

theorem block_vars_self (D : PcdToken → Nat) (t : PcdToken) (st : Store) :
    (SetupVariablesBlock (StoreServices D) t.VariableName t st).world.vars t.VariableName =
      st.seeded D t := by
  rw [SetupVariablesBlock_store]
  unfold Store.seeded
  by_cases h : st.Readable t
  · simp [h]
  · by_cases hw : st.writeFails t.VariableName = true
    · simp [h, hw, Store.SetVariable32]
    · simp [h, hw, Store.SetVariable32]

theorem seeded_congr (D : PcdToken → Nat) (a b : Store) (s : PcdToken)
    (hv : a.vars s.VariableName = b.vars s.VariableName)
    (hr : a.readFails s.VariableName = b.readFails s.VariableName)
    (hw : a.writeFails s.VariableName = b.writeFails s.VariableName) :
    a.seeded D s = b.seeded D s := by
  unfold Store.seeded
  simp only [Readable_congr a b s hv hr, hv, hw]

theorem runBlocks_readFails (D : PcdToken → Nat) (ts : List PcdToken) (st : Store) :
    (runBlocks (StoreServices D) ts st).1.readFails = st.readFails := by
  induction ts generalizing st with
  | nil => rfl
  | cons t ts ih => simp only [runBlocks, ih, block_readFails]

theorem runBlocks_writeFails (D : PcdToken → Nat) (ts : List PcdToken) (st : Store) :
    (runBlocks (StoreServices D) ts st).1.writeFails = st.writeFails := by
  induction ts generalizing st with
  | nil => rfl
  | cons t ts ih => simp only [runBlocks, ih, block_writeFails]

theorem runBlocks_vars_other (D : PcdToken → Nat) (ts : List PcdToken) (st : Store)
    (n : String) (h : ∀ t ∈ ts, n ≠ t.VariableName) :
    (runBlocks (StoreServices D) ts st).1.vars n = st.vars n := by
  induction ts generalizing st with
  | nil => rfl
  | cons t ts ih =>
    simp only [runBlocks]
    rw [ih _ (fun x hx => h x (List.mem_cons_of_mem _ hx)),
      block_vars_other D t st n (h t (List.mem_cons_self _ _))]

theorem runBlocks_vars_mem (D : PcdToken → Nat) (ts : List PcdToken) (st : Store)
    (s : PcdToken) (hn : ts.Nodup) (hs : s ∈ ts) :
    (runBlocks (StoreServices D) ts st).1.vars s.VariableName = st.seeded D s := by
  induction ts generalizing st with
  | nil => cases hs
  | cons t ts ih =>
    simp only [runBlocks]
    rw [List.nodup_cons] at hn
    by_cases hst : s = t
    · subst hst
      rw [runBlocks_vars_other D ts _ _ (fun x hx hxe =>
        hn.1 (((VariableName_inj s x).1 hxe) ▸ hx)), block_vars_self]
    · have hs2 : s ∈ ts := by
        rcases List.mem_cons.1 hs with h | h
        · exact absurd h hst
        · exact h
      have hne : s.VariableName ≠ t.VariableName := fun h => hst ((VariableName_inj s t).1 h)
      rw [ih _ hn.2 hs2]
      apply seeded_congr
      · exact block_vars_other D t st _ hne
      · rw [block_readFails]
      · rw [block_writeFails]

theorem SetupVariables_world {W : Type} (P : VariableServices W) (w : W) :
    (SetupVariables P w).world = (runBlocks P allTokens w).1 := rfl

theorem SetupVariables_trace {W : Type} (P : VariableServices W) (w : W) :
    (SetupVariables P w).trace = (runBlocks P allTokens w).2 := by
  simp [SetupVariables, runBlocks, allTokens, PcdToken.VariableName]

/-- What the store holds for each of the five variables after
`SetupVariables`. -/
theorem SetupVariables_vars (D : PcdToken → Nat) (st : Store) (s : PcdToken) :
    (SetupVariables (StoreServices D) st).world.vars s.VariableName = st.seeded D s := by
  rw [SetupVariables_world]
  exact runBlocks_vars_mem D allTokens st s allTokens_nodup (mem_allTokens s)

theorem writesOf_append (s : PcdToken) (a b : List Event) :
    writesOf s (a ++ b) = writesOf s a ++ writesOf s b := by
  simp [writesOf]

theorem readsOf_append (s : PcdToken) (a b : List Event) :
    readsOf s (a ++ b) = readsOf s a ++ readsOf s b := by
  simp [readsOf]

theorem mem_writesOf (s : PcdToken) (v : Nat) (tr : List Event) :
    Event.PcdSet32 s v ∈ writesOf s tr ↔ Event.PcdSet32 s v ∈ tr := by
  simp [writesOf]

theorem block_writes (D : PcdToken → Nat) (t s : PcdToken) (st : Store) :
    writesOf s (SetupVariablesBlock (StoreServices D) t.VariableName t st).trace =
      if s = t ∧ ¬ st.Readable t then [.PcdSet32 t (D t % UINT32_MOD)] else [] := by
  rw [SetupVariablesBlock_store]
  by_cases h : st.Readable t
  · simp [h, writesOf]
  · by_cases hst : s = t
    · subst hst; simp [h, writesOf]
    · have hts : ¬ t = s := fun e => hst e.symm
      simp [h, hst, hts, writesOf]

theorem block_reads (D : PcdToken → Nat) (t s : PcdToken) (st : Store) :
    readsOf s (SetupVariablesBlock (StoreServices D) t.VariableName t st).trace =
      if s = t then [.GetVariable t.VariableName 4] else [] := by
  rw [SetupVariablesBlock_store]
  by_cases hst : s = t
  · subst hst; split <;> simp [readsOf]
  · have hne : ¬ t.VariableName = s.VariableName := fun e => hst ((VariableName_inj t s).1 e).symm
    split <;> simp [readsOf, hst, hne]

theorem runBlocks_writes (D : PcdToken → Nat) (ts : List PcdToken) (st : Store)
    (s : PcdToken) (hn : ts.Nodup) :
    writesOf s (runBlocks (StoreServices D) ts st).2 =
      if s ∈ ts ∧ ¬ st.Readable s then [.PcdSet32 s (D s % UINT32_MOD)] else [] := by
  induction ts generalizing st with
  | nil => simp [runBlocks, writesOf]
  | cons t ts ih =>
    simp only [runBlocks]
    rw [List.nodup_cons] at hn
    rw [writesOf_append, ih _ hn.2, block_writes]
    by_cases hst : s = t
    · subst hst
      simp [hn.1]
    · have hne : s.VariableName ≠ t.VariableName := fun h => hst ((VariableName_inj s t).1 h)
      have hc := Readable_congr (SetupVariablesBlock (StoreServices D) t.VariableName t st).world
        st s (block_vars_other D t st _ hne) (by rw [block_readFails])
      simp [hst, hc]

theorem runBlocks_reads (D : PcdToken → Nat) (ts : List PcdToken) (st : Store)
    (s : PcdToken) (hn : ts.Nodup) :
    readsOf s (runBlocks (StoreServices D) ts st).2 =
      if s ∈ ts then [.GetVariable s.VariableName 4] else [] := by
  induction ts generalizing st with
  | nil => simp [runBlocks, readsOf]
  | cons t ts ih =>
    simp only [runBlocks]
    rw [List.nodup_cons] at hn
    rw [readsOf_append, ih _ hn.2, block_reads]
    by_cases hst : s = t
    · subst hst
      simp [hn.1]
    · simp [hst]

theorem runBlocks_world_readable (D : PcdToken → Nat) (ts : List PcdToken) (st : Store)
    (h : ∀ t ∈ ts, st.Readable t) :
    (runBlocks (StoreServices D) ts st).1 = st := by
  induction ts generalizing st with
  | nil => rfl
  | cons t ts ih =>
    have hb : (SetupVariablesBlock (StoreServices D) t.VariableName t st).world = st := by
      rw [SetupVariablesBlock_store]; simp [h t (List.mem_cons_self _ _)]
    simp only [runBlocks]
    rw [hb]
    exact ih st (fun x hx => h x (List.mem_cons_of_mem _ hx))

/-- The writes `SetupVariables` issues for each of the five variables: none
when the read succeeds, one write of the compiled default otherwise. -/
theorem SetupVariables_writes (D : PcdToken → Nat) (st : Store) (s : PcdToken) :
    writesOf s (SetupVariables (StoreServices D) st).trace =
      if st.Readable s then [] else [.PcdSet32 s (D s % UINT32_MOD)] := by
  rw [SetupVariables_trace, runBlocks_writes D allTokens st s allTokens_nodup]
  by_cases h : st.Readable s <;> simp [h, mem_allTokens]

/-- The reads `SetupVariables` issues for each of the five variables: exactly
one, with a 4-byte buffer. -/
theorem SetupVariables_reads (D : PcdToken → Nat) (st : Store) (s : PcdToken) :
    readsOf s (SetupVariables (StoreServices D) st).trace =
      [.GetVariable s.VariableName 4] := by
  rw [SetupVariables_trace, runBlocks_reads D allTokens st s allTokens_nodup]
  simp [mem_allTokens]

/-- C1: for each of the five settings and every value `V`, if the store holds
the 4-byte value `V` for the setting and the read succeeds, then after
`SetupVariables` the store still holds `V` for it (whatever the compiled
default is) and the run issued no write for that setting. -/
theorem SetupVariables_keeps_existing (D : PcdToken → Nat) (st : Store) (s : PcdToken)
    (V : Nat)
    (hV : st.vars s.VariableName = some { DataSize := 4, Data := V })
    (hread : st.Readable s) :
    (SetupVariables (StoreServices D) st).world.vars s.VariableName =
        some { DataSize := 4, Data := V } ∧
      ∀ v, Event.PcdSet32 s v ∉ (SetupVariables (StoreServices D) st).trace := by
  constructor
  · rw [SetupVariables_vars, Store.seeded, if_pos hread, hV]
  · intro v hv
    rw [← mem_writesOf, SetupVariables_writes, if_pos hread] at hv
    cases hv

/-- Witness of C1: the store holds policy 7 while the compiled default is 0. -/
theorem SetupVariables_keeps_existing_witness :
    (storeWithPolicy 7).vars PcdToken.PcdCpuClock.VariableName =
        some { DataSize := 4, Data := 7 } ∧
    (storeWithPolicy 7).Readable .PcdCpuClock ∧
    7 ≠ defaultsZero .PcdCpuClock % UINT32_MOD ∧
    (SetupVariables (StoreServices defaultsZero) (storeWithPolicy 7)).world.vars
        PcdToken.PcdCpuClock.VariableName = some { DataSize := 4, Data := 7 } ∧
      ∀ v, Event.PcdSet32 .PcdCpuClock v ∉
        (SetupVariables (StoreServices defaultsZero) (storeWithPolicy 7)).trace :=
  ⟨by decide, by decide, by decide,
   SetupVariables_keeps_existing defaultsZero (storeWithPolicy 7) .PcdCpuClock 7
     (by decide) (by decide)⟩

/-- C2: for every initial store and each of the five settings, after
`SetupVariables` either the setting was readable before the run and is
unchanged, or the store holds its compiled default as a 4-byte value, or the
read failed and the store fails writes for the setting (the write of the
default was issued all the same).  Starting from a store that holds nothing
and has no write fault, each of the five settings is present with its compiled
default. -/
theorem SetupVariables_seeds (D : PcdToken → Nat) (st : Store) (s : PcdToken)
    (readFails : String → Bool) :
    ((st.Readable s ∧
        (SetupVariables (StoreServices D) st).world.vars s.VariableName =
          st.vars s.VariableName) ∨
      (SetupVariables (StoreServices D) st).world.vars s.VariableName =
        some { DataSize := 4, Data := D s % UINT32_MOD } ∨
      (¬ st.Readable s ∧ st.writeFails s.VariableName = true ∧
        Event.PcdSet32 s (D s % UINT32_MOD) ∈ (SetupVariables (StoreServices D) st).trace)) ∧
    (SetupVariables (StoreServices D)
        { vars := fun _ => none, readFails := readFails, writeFails := fun _ => false }
      ).world.vars s.VariableName = some { DataSize := 4, Data := D s % UINT32_MOD } := by
  constructor
  · rw [SetupVariables_vars, Store.seeded]
    by_cases h : st.Readable s
    · left; simp [h]
    · by_cases hw : st.writeFails s.VariableName = true
      · right; right
        refine ⟨h, hw, ?_⟩
        rw [← mem_writesOf, SetupVariables_writes, if_neg h]
        simp
      · right; left; simp [h, hw]
  · rw [SetupVariables_vars, Store.seeded]
    have h : ¬ Store.Readable
        { vars := fun _ => none, readFails := readFails, writeFails := fun _ => false } s := by
      rw [Readable_iff]; simp
    simp [h]

/-- C3: when the store fails writes for the variable of `A` and for no other
name, `SetupVariables` still reads each other setting `B` exactly once and
either leaves its readable value (no write) or writes its compiled default,
which the store then holds; the value the store holds for `B` and the writes
issued for `B` are the same as on the store without the write fault. -/
theorem SetupVariables_isolates_write_failure (D : PcdToken → Nat) (st : Store)
    (A B : PcdToken)
    (hA : ∀ n, st.writeFails n = true ↔ n = A.VariableName) (hB : B ≠ A) :
    readsOf B (SetupVariables (StoreServices D) st).trace =
        [.GetVariable B.VariableName 4] ∧
    ((st.Readable B ∧
        (SetupVariables (StoreServices D) st).world.vars B.VariableName =
          st.vars B.VariableName ∧
        ∀ v, Event.PcdSet32 B v ∉ (SetupVariables (StoreServices D) st).trace) ∨
      (¬ st.Readable B ∧
        Event.PcdSet32 B (D B % UINT32_MOD) ∈ (SetupVariables (StoreServices D) st).trace ∧
        (SetupVariables (StoreServices D) st).world.vars B.VariableName =
          some { DataSize := 4, Data := D B % UINT32_MOD })) ∧
    (SetupVariables (StoreServices D) st).world.vars B.VariableName =
      (SetupVariables (StoreServices D) { st with writeFails := fun _ => false }
        ).world.vars B.VariableName ∧
    writesOf B (SetupVariables (StoreServices D) st).trace =
      writesOf B (SetupVariables (StoreServices D) { st with writeFails := fun _ => false }
        ).trace := by
  have hw : st.writeFails B.VariableName = false := by
    cases h : st.writeFails B.VariableName
    · rfl
    · exact absurd ((VariableName_inj B A).1 ((hA _).1 h)) hB
  have hc : Store.Readable { st with writeFails := fun _ => false } B ↔ st.Readable B :=
    Readable_congr _ _ B rfl rfl
  refine ⟨SetupVariables_reads D st B, ?_, ?_, ?_⟩
  · by_cases h : st.Readable B
    · left
      refine ⟨h, ?_, ?_⟩
      · rw [SetupVariables_vars, Store.seeded, if_pos h]
      · intro v hv
        rw [← mem_writesOf, SetupVariables_writes, if_pos h] at hv
        cases hv
    · right
      refine ⟨h, ?_, ?_⟩
      · rw [← mem_writesOf, SetupVariables_writes, if_neg h]
        simp
      · rw [SetupVariables_vars, Store.seeded, if_neg h]
        simp [hw]
  · rw [SetupVariables_vars, SetupVariables_vars]
    exact seeded_congr D _ _ B rfl rfl hw
  · rw [SetupVariables_writes, SetupVariables_writes]
    simp only [hc]

/-- Witness of C3: writes fail for `HypEnable` only; the other setting is the
CPU clock policy, absent from the store, which ends up with its default. -/
theorem SetupVariables_isolates_write_failure_witness :
    (∀ n, (storeWriteFailing .PcdHypEnable).writeFails n = true ↔
      n = PcdToken.PcdHypEnable.VariableName) ∧
    PcdToken.PcdCpuClock ≠ PcdToken.PcdHypEnable ∧
    (SetupVariables (StoreServices defaultsZero)
        (storeWriteFailing .PcdHypEnable)).world.vars PcdToken.PcdHypEnable.VariableName =
      none ∧
    (SetupVariables (StoreServices defaultsZero)
        (storeWriteFailing .PcdHypEnable)).world.vars PcdToken.PcdCpuClock.VariableName =
      some { DataSize := 4, Data := 0 } ∧
    readsOf .PcdCpuClock
        (SetupVariables (StoreServices defaultsZero) (storeWriteFailing .PcdHypEnable)).trace =
      [.GetVariable PcdToken.PcdCpuClock.VariableName 4] ∧
    (SetupVariables (StoreServices defaultsZero)
        (storeWriteFailing .PcdHypEnable)).world.vars PcdToken.PcdCpuClock.VariableName =
      (SetupVariables (StoreServices defaultsZero)
        { storeWriteFailing .PcdHypEnable with writeFails := fun _ => false }
        ).world.vars PcdToken.PcdCpuClock.VariableName ∧
    writesOf .PcdCpuClock
        (SetupVariables (StoreServices defaultsZero) (storeWriteFailing .PcdHypEnable)).trace =
      writesOf .PcdCpuClock
        (SetupVariables (StoreServices defaultsZero)
          { storeWriteFailing .PcdHypEnable with writeFails := fun _ => false }).trace :=
  have h := SetupVariables_isolates_write_failure defaultsZero (storeWriteFailing .PcdHypEnable)
    .PcdHypEnable .PcdCpuClock (fun n => by simp [storeWriteFailing]) (by decide)
  ⟨fun n => by simp [storeWriteFailing], by decide, by decide, by decide, h.1, h.2.2.1, h.2.2.2⟩

/-- C10: on a store with no read fault and no write fault, running
`SetupVariables` a second time leaves the store equal to the store after the
first run, and the second run issues no write for any of the five
settings. -/
theorem SetupVariables_idempotent (D : PcdToken → Nat) (st : Store)
    (hr : ∀ n, st.readFails n = false) (hw : ∀ n, st.writeFails n = false) :
    (SetupVariables (StoreServices D) (SetupVariables (StoreServices D) st).world).world =
        (SetupVariables (StoreServices D) st).world ∧
      ∀ s v, Event.PcdSet32 s v ∉
        (SetupVariables (StoreServices D) (SetupVariables (StoreServices D) st).world).trace := by
  have hread : ∀ s, (SetupVariables (StoreServices D) st).world.Readable s := by
    intro s
    rw [Readable_iff, SetupVariables_vars, SetupVariables_world, runBlocks_readFails]
    refine ⟨hr _, ?_⟩
    unfold Store.seeded
    by_cases h : st.Readable s
    · rw [if_pos h]
      exact ((Readable_iff st s).1 h).2
    · rw [if_neg h]
      simp [hw]
  constructor
  · rw [SetupVariables_world (StoreServices D) (SetupVariables (StoreServices D) st).world]
    exact runBlocks_world_readable D allTokens _ (fun t _ => hread t)
  · intro s v hv
    rw [← mem_writesOf, SetupVariables_writes, if_pos (hread s)] at hv
    cases hv

/-- Witness of C10 on the empty store. -/
theorem SetupVariables_idempotent_witness :
    (∀ n, Store.empty.readFails n = false) ∧ (∀ n, Store.empty.writeFails n = false) ∧
    (SetupVariables (StoreServices defaultsZero)
        (SetupVariables (StoreServices defaultsZero) Store.empty).world).world =
        (SetupVariables (StoreServices defaultsZero) Store.empty).world ∧
      ∀ s v, Event.PcdSet32 s v ∉
        (SetupVariables (StoreServices defaultsZero)
          (SetupVariables (StoreServices defaultsZero) Store.empty).world).trace :=
  ⟨fun _ => rfl, fun _ => rfl,
   SetupVariables_idempotent defaultsZero Store.empty (fun _ => rfl) (fun _ => rfl)⟩

/-! ## The entry points -/

/-- C9 as stated fails at the protocol lookup: when `LocateProtocol` fails
with `EFI_NOT_FOUND` (and assertions do not halt), `ConfigInitialize` returns
`EFI_NOT_FOUND`, not `EFI_SUCCESS`, and has called nothing else. -/
theorem ConfigInitialize_lookup_failure_counterexample :
    (ConfigInitialize bootLookupFails (StoreServices defaultsZero) Store.empty).map
        (fun o => (o.ret, o.trace)) = some (EFI_NOT_FOUND, [Event.LocateProtocol]) ∧
      EFI_NOT_FOUND ≠ EFI_SUCCESS := by
  decide

/-- C9, amended: `SetupVariables` returns `EFI_SUCCESS` for every behaviour
of the variable services.  `ConfigInitialize` returns, with `EFI_SUCCESS`, for
every behaviour of the variable services, the clock service and the HII page
installation, provided the lookup of the firmware protocol does not fail and
yields a protocol.  When the lookup fails, `ConfigInitialize` runs nothing
else and returns the error status of the lookup, which is not `EFI_SUCCESS`
(or halts in the assertion, in a build where assertions halt). -/
theorem ConfigInitialize_status {W : Type} (B : BootServices W) (P : VariableServices W)
    (w : W) :
    (SetupVariables P w).ret = EFI_SUCCESS ∧
    (∀ fw, EFI_ERROR (B.LocateProtocol w).1 = false → (B.LocateProtocol w).2.1 = some fw →
      ∃ o, ConfigInitialize B P w = some o ∧ o.ret = EFI_SUCCESS) ∧
    (EFI_ERROR (B.LocateProtocol w).1 = true →
      (B.LocateProtocol w).1 % UINTN_MOD ≠ EFI_SUCCESS ∧
      ConfigInitialize B P w =
        if B.AssertHalts then none
        else some { ret := (B.LocateProtocol w).1 % UINTN_MOD,
                    world := (B.LocateProtocol w).2.2,
                    trace := [.LocateProtocol] }) := by
  refine ⟨rfl, ?_, ?_⟩
  · intro fw he hp
    unfold ConfigInitialize
    simp only [EFI_ERROR_mod, he, hp]
    exact ⟨_, rfl, rfl⟩
  · intro he
    constructor
    · intro h0
      rw [← EFI_ERROR_mod, h0] at he
      exact absurd he (by decide)
    · unfold ConfigInitialize
      simp only [EFI_ERROR_mod, he]
      rfl

/-- Witness of the amended C9: the lookup succeeds, every clock-service call
fails and the HII pages cannot be installed; `ConfigInitialize` still returns
`EFI_SUCCESS`. -/
theorem ConfigInitialize_status_witness :
    EFI_ERROR (bootPagesFail.LocateProtocol (storeWithPolicy 2)).1 = false ∧
    (InstallHiiPages bootPagesFail (storeWithPolicy 2)).ret = EFI_OUT_OF_RESOURCES ∧
    EFI_ERROR (bootLookupFails.LocateProtocol Store.empty).1 = true ∧
    (∃ o, ConfigInitialize bootPagesFail (StoreServices defaultsZero) (storeWithPolicy 2) =
        some o ∧ o.ret = EFI_SUCCESS) ∧
    ConfigInitialize bootLookupFails (StoreServices defaultsZero) Store.empty =
      if bootLookupFails.AssertHalts then none
      else some { ret := (bootLookupFails.LocateProtocol Store.empty).1 % UINTN_MOD,
                  world := (bootLookupFails.LocateProtocol Store.empty).2.2,
                  trace := [.LocateProtocol] } :=
  ⟨by decide, by decide, by decide,
   (ConfigInitialize_status bootPagesFail (StoreServices defaultsZero)
      (storeWithPolicy 2)).2.1 fwFailing (by decide) rfl,
   ((ConfigInitialize_status bootLookupFails (StoreServices defaultsZero)
      Store.empty).2.2 (by decide)).2⟩

end ConfigDxe
